import Mathlib

/-!
Shallow embedding of the checkpwn-lib core (src/api.rs, src/errors.rs, src/lib.rs).

Strings are modelled as `List Char` (the credential digests and API responses in
play are ASCII, so Rust's byte indexing coincides with character indexing).
Rust functions that can panic (`unwrap`, out-of-range slicing) are embedded with
an `Option` result, `none` standing for the panic. Effectful functions
(`check_password`, `check_account`) take the outcome of each outbound HTTP call
as an explicit argument.
-/

/-- Strings of the embedding: Rust `str` data as a list of characters. -/
abbrev Str := List Char

/-- The error enumeration of src/errors.rs (`CheckpwnError`). -/
inductive CheckpwnError where
  | StatusCode
  | Network
  | Decoding
  | BadResponse
  | InvalidApiKey
  | MissingApiKey
  | EmptyInput
deriving DecidableEq, Repr

/-- A `ureq::Response`: the HTTP status code and the body text
(`into_string`). -/
structure UreqResponse where
  status : Nat
  body : Str
deriving DecidableEq, Repr

/-- A `ureq::Error`: either `Status(code, response)` — an HTTP response with a
4xx/5xx status — or `Transport` — no response was obtained at all. -/
inductive UreqError where
  | Status (code : Nat) (response : UreqResponse)
  | Transport
deriving DecidableEq, Repr

/-- `response_to_status_codes` from src/api.rs: map the outcome of one HTTP
call to a status code, or to `Network` when no response was obtained. -/
def response_to_status_codes (response : Except UreqError UreqResponse) :
    Except CheckpwnError Nat :=
  match response with
  | .ok resp => .ok resp.status
  | .error (.Status code _) => .ok code
  | .error .Transport => .error .Network

/-- `evaluate_acc_breach_statuscodes` from src/api.rs: combine the account and
paste endpoint status codes into a breach verdict. -/
def evaluate_acc_breach_statuscodes (acc_stat paste_stat : Nat) :
    Except CheckpwnError Bool :=
  match acc_stat, paste_stat with
  | 401, 401 => .error .InvalidApiKey
  | 404, 404 => .ok false
  | 404, 400 => .ok false
  | 400, 400 => .error .BadResponse
  | 400, 404 => .error .BadResponse
  | 400, 200 => .error .BadResponse
  | _, _ => .ok true

/-- The check kinds of src/api.rs (`CheckableChoices`). -/
inductive CheckableChoices where
  | Acc
  | Pass
  | Paste
deriving DecidableEq, Repr

/-- `CheckableChoices::get_api_route` from src/api.rs: the endpoint URL for a
check kind and search term. -/
def CheckableChoices.get_api_route (arg : CheckableChoices)
    (search_term : Str) : Str :=
  match arg with
  | .Acc => "https://haveibeenpwned.com/api/v3/breachedaccount/".data
      ++ search_term
  | .Pass => "https://api.pwnedpasswords.com/range/".data ++ search_term
  | .Paste => "https://haveibeenpwned.com/api/v3/pasteaccount/".data
      ++ search_term

/-- `arg_to_api_route` from src/api.rs. For the `Pass` kind only the first
five characters of `input_data` are sent; the Rust slice `&input_data[..5]`
panics when `input_data` is shorter than five bytes, embedded here as `none`. -/
def arg_to_api_route (arg : CheckableChoices) (input_data : Str) :
    Option Str :=
  match arg with
  | .Pass =>
      if input_data.length < 5 then none
      else some (CheckableChoices.get_api_route .Pass (input_data.take 5))
  | _ => some (arg.get_api_route input_data)

/-- Split a character list at every occurrence of `sep`, as Rust
`str::split` with a one-character pattern: the empty input gives one empty
field, and every separator opens a new field. -/
def splitOn (sep : Char) : Str → List Str
  | [] => [[]]
  | c :: rest =>
    if c = sep then [] :: splitOn sep rest
    else
      match splitOn sep rest with
      | [] => [[c]]
      | s :: ss => (c :: s) :: ss

/-- Remove one trailing carriage return, as Rust `lines` does on every
newline-terminated line. -/
def stripCR (l : Str) : Str :=
  if l.getLast? = some '\r' then l.dropLast else l

/-- Rust `str::lines`: split at `'\n'`, drop the optional final empty field
left by a trailing newline, and strip a `'\r'` before each `'\n'`. The final
field, when the text does not end in a newline, keeps any trailing `'\r'`. -/
def rustLines (s : Str) : List Str :=
  match s with
  | [] => []
  | _ =>
    let parts := splitOn '\n' s
    match parts.getLast? with
    | some last =>
        if last = [] then parts.dropLast.map stripCR
        else parts.dropLast.map stripCR ++ [last]
    | none => []

/-- The loop body of `search_in_range` over the already-split lines. Each
line is split at `':'`; `pair.get(1).unwrap()` panics (`none`) when a line
has no colon, and the slice `&hashed_key[5..]` panics when `hashed_key` is
shorter than five bytes. A line whose second field is `"0"` is skipped. -/
def search_lines : List Str → Str → Option Bool
  | [], _ => some false
  | line :: rest, hashed_key =>
    match (splitOn ':' line)[1]? with
    | none => none
    | some cnt =>
      if cnt = ['0'] then search_lines rest hashed_key
      else if hashed_key.length < 5 then none
      else if (splitOn ':' line).getD 0 [] = hashed_key.drop 5 then some true
      else search_lines rest hashed_key

/-- `search_in_range` from src/api.rs: scan the range-response body for the
last 35 characters of the hashed key, skipping padding lines whose
occurrence count is `0`. `none` is the embedded panic. -/
def search_in_range (password_range_response hashed_key : Str) :
    Option Bool :=
  search_lines (rustLines password_range_response) hashed_key

/-- Reduce to a 32-bit word, the wrap-around of `u32` arithmetic. -/
def w32 (n : Nat) : Nat := n % 4294967296

/-- Rotate a 32-bit word left by `k` bits. -/
def rotl (x k : Nat) : Nat := ((x <<< k) ||| (x >>> (32 - k))) % 4294967296

/-- UTF-8 encoding of one character, as Rust `str::as_bytes` sees it. -/
def utf8Char (c : Char) : List Nat :=
  let n := c.toNat
  if n < 128 then [n]
  else if n < 2048 then [192 + n / 64, 128 + n % 64]
  else if n < 65536 then [224 + n / 4096, 128 + n / 64 % 64, 128 + n % 64]
  else [240 + n / 262144, 128 + n / 4096 % 64, 128 + n / 64 % 64, 128 + n % 64]

/-- The UTF-8 bytes of a string (`password.as_bytes()`). -/
def utf8Bytes (s : Str) : List Nat := s.flatMap utf8Char

/-- Big-endian 32-bit words from a byte sequence. -/
def toWordsBE : List Nat → List Nat
  | b0 :: b1 :: b2 :: b3 :: rest =>
      (b0 * 16777216 + b1 * 65536 + b2 * 256 + b3) :: toWordsBE rest
  | _ => []

/-- SHA-1 message-schedule extension: append `k` further words, each the
one-bit left rotation of the XOR of the words 3, 8, 14 and 16 places back. -/
def extendW : List Nat → Nat → List Nat
  | ws, 0 => ws
  | ws, Nat.succ k =>
      let n := ws.length
      extendW (ws ++ [rotl ((ws.getD (n - 3) 0) ^^^ (ws.getD (n - 8) 0) ^^^
        (ws.getD (n - 14) 0) ^^^ (ws.getD (n - 16) 0)) 1]) k

/-- The five 32-bit working registers of SHA-1. -/
structure Sha1State where
  a : Nat
  b : Nat
  c : Nat
  d : Nat
  e : Nat
deriving DecidableEq, Repr

/-- The SHA-1 round function for round `i`. -/
def sha1F (i b c d : Nat) : Nat :=
  if i < 20 then (b &&& c) ||| ((b ^^^ 4294967295) &&& d)
  else if i < 40 then b ^^^ c ^^^ d
  else if i < 60 then (b &&& c) ||| (b &&& d) ||| (c &&& d)
  else b ^^^ c ^^^ d

/-- The SHA-1 round constant for round `i`. -/
def sha1K (i : Nat) : Nat :=
  if i < 20 then 1518500249
  else if i < 40 then 1859775393
  else if i < 60 then 2400959708
  else 3395469782

/-- One SHA-1 round: `p` is the round index paired with the schedule word. -/
def sha1Step (st : Sha1State) (p : Nat × Nat) : Sha1State :=
  let temp := w32 (rotl st.a 5 + sha1F p.1 st.b st.c st.d + st.e
    + sha1K p.1 + p.2)
  ⟨temp, st.a, rotl st.b 30, st.c, st.d⟩

/-- SHA-1 compression of one 64-byte block into the running state. -/
def processBlock (st : Sha1State) (block : List Nat) : Sha1State :=
  let ws := extendW (toWordsBE block) 64
  let f := ws.enum.foldl (fun s iw => sha1Step s (iw.1, iw.2)) st
  ⟨w32 (st.a + f.a), w32 (st.b + f.b), w32 (st.c + f.c),
    w32 (st.d + f.d), w32 (st.e + f.e)⟩

/-- The 8-byte big-endian encoding of the message bit length. -/
def lenBE8 (n : Nat) : List Nat :=
  [n / 72057594037927936 % 256, n / 281474976710656 % 256,
   n / 1099511627776 % 256, n / 4294967296 % 256,
   n / 16777216 % 256, n / 65536 % 256, n / 256 % 256, n % 256]

/-- SHA-1 padding: a `0x80` byte, zeros to 56 mod 64, and the bit length. -/
def sha1Pad (msg : List Nat) : List Nat :=
  msg ++ [128] ++ List.replicate ((119 - msg.length % 64) % 64) 0
    ++ lenBE8 (msg.length * 8)

/-- Compress `k` consecutive 64-byte blocks of `bytes`. -/
def sha1Blocks : Nat → Sha1State → List Nat → Sha1State
  | 0, st, _ => st
  | Nat.succ k, st, bytes =>
      sha1Blocks k (processBlock st (bytes.take 64)) (bytes.drop 64)

/-- The four big-endian bytes of a 32-bit word. -/
def be4 (w : Nat) : List Nat :=
  [w / 16777216 % 256, w / 65536 % 256, w / 256 % 256, w % 256]

/-- The 20-byte SHA-1 digest read out of the final state. -/
def digestBytes (st : Sha1State) : List Nat :=
  be4 st.a ++ be4 st.b ++ be4 st.c ++ be4 st.d ++ be4 st.e

/-- SHA-1 of a byte sequence (the `sha1` crate behind src/api.rs). -/
def sha1 (msg : List Nat) : List Nat :=
  let padded := sha1Pad msg
  digestBytes (sha1Blocks (padded.length / 64)
    ⟨1732584193, 4023233417, 2562383102, 271733878, 3285377520⟩ padded)

/-- The sixteen digits of the uppercase hexadecimal alphabet. -/
def hexChars : Str := "0123456789ABCDEF".data

/-- The uppercase hexadecimal digit of a value below sixteen. -/
def hexDigit (n : Nat) : Char := hexChars.getD n '0'

/-- Two uppercase hexadecimal digits of one byte. -/
def hexByte (b : Nat) : Str := [hexDigit (b / 16 % 16), hexDigit (b % 16)]

/-- Uppercase hexadecimal rendering of a byte sequence —
`hex::encode(..).to_uppercase()` composed into one table lookup. -/
def hexUpper (bs : List Nat) : Str := bs.flatMap hexByte

/-- `hash_password` from src/api.rs: the uppercase-hex SHA-1 digest of the
password's UTF-8 bytes. -/
def hash_password (password : Str) : Str := hexUpper (sha1 (utf8Bytes password))

/-- The `Password` wrapper of src/lib.rs, holding the SHA-1 digest. -/
structure Password where
  hash : Str
deriving DecidableEq, Repr

/-- `Password::new` from src/lib.rs: reject the empty plaintext before any
hashing, otherwise wrap the digest. -/
def Password.new (password : Str) : Except CheckpwnError Password :=
  if password = [] then .error .EmptyInput
  else .ok ⟨hash_password password⟩

/-- The `Debug` rendering of `Password` from src/lib.rs: a fixed placeholder,
independent of the digest. -/
def Password.debugFmt (_p : Password) : Str :=
  "Password \x7b hash: ***OMITTED*** \x7d".data

/-- `check_password` from src/lib.rs, with the outcome of the range request
passed in as `pass_stat`. The route is built first (the slice inside panics
on a digest shorter than five characters); `response_to_status_codes` errors
propagate through `?`; then `pass_stat.unwrap()` reads the body — a panic
(`none`) whenever the outcome is any `Err`, including `Err(Status(..))`
which the preceding line turned into an `Ok` status; finally the local scan
decides the verdict. `into_string()` is modelled as the stored body text. -/
def check_password (password : Password)
    (pass_stat : Except UreqError UreqResponse) :
    Option (Except CheckpwnError Bool) :=
  match arg_to_api_route .Pass password.hash with
  | none => none
  | some _route =>
    match response_to_status_codes pass_stat with
    | .error e => some (.error e)
    | .ok request_status =>
      match pass_stat with
      | .error _ => none
      | .ok resp =>
        match search_in_range resp.body password.hash with
        | none => none
        | some matched =>
          if matched then
            if request_status = 200 then some (.ok true)
            else if request_status = 404 then some (.ok false)
            else some (.error .StatusCode)
          else some (.ok false)

/-- `check_account` from src/lib.rs, with the outcomes of the two requests
passed in as `acc_stat` and `paste_stat`. The empty-input rejection precedes
the rate-limit sleep and both requests, so the result then ignores both
outcomes. -/
def check_account (account api_key : Str)
    (acc_stat paste_stat : Except UreqError UreqResponse) :
    Except CheckpwnError Bool :=
  if account = [] ∨ api_key = [] then .error .EmptyInput
  else
    match response_to_status_codes acc_stat with
    | .error e => .error e
    | .ok a =>
      match response_to_status_codes paste_stat with
      | .error e => .error e
      | .ok p => evaluate_acc_breach_statuscodes a p

/-- `splitOn` always yields at least one field, so `pair.get(0).unwrap()` in
src/api.rs can never panic. -/
theorem splitOn_ne_nil (sep : Char) (s : Str) : splitOn sep s ≠ [] := by
  induction s with
  | nil => simp [splitOn]
  | cons c rest ih =>
    rw [splitOn]
    split
    · simp
    · split
      · simp
      · simp

/-- The scan over well-formed lines (each containing a colon, and a key long
enough to slice) never panics and returns exactly whether some line has a
count field other than `"0"` together with a suffix field equal to the last
35 characters of the key. -/
theorem search_lines_eq_any (lines : List Str) (key : Str)
    (hkey : 5 ≤ key.length)
    (hwf : ∀ l ∈ lines, 2 ≤ (splitOn ':' l).length) :
    search_lines lines key =
      some (lines.any fun l =>
        !((splitOn ':' l).getD 1 [] == ['0']) &&
        ((splitOn ':' l).getD 0 [] == key.drop 5)) := by
  induction lines with
  | nil => simp [search_lines]
  | cons line rest ih =>
    have h2 := hwf line (List.mem_cons_self line rest)
    have hrest := fun l hl => hwf l (List.mem_cons_of_mem line hl)
    rcases hsp : splitOn ':' line with _ | ⟨a, _ | ⟨b, tl⟩⟩
    · rw [hsp] at h2; simp at h2
    · rw [hsp] at h2; simp at h2
    · by_cases hb : b = ['0']
      · subst hb
        simp [search_lines, hsp, ih hrest]
      · by_cases ha : a = key.drop 5
        · subst ha
          simp [search_lines, hsp, hb, Nat.not_lt.mpr hkey]
        · simp [search_lines, hsp, hb, ha, Nat.not_lt.mpr hkey, ih hrest]

/-- Every hexadecimal digit character is in the uppercase-hex alphabet. -/
theorem hexDigit_mem (n : Nat) : hexDigit n ∈ hexChars := by
  rcases Nat.lt_or_ge n 16 with h | h
  · interval_cases n <;> decide
  · rw [hexDigit, List.getD_eq_default]
    · decide
    · exact h

/-- `hexUpper` writes two characters per byte. -/
theorem hexUpper_length (bs : List Nat) :
    (hexUpper bs).length = 2 * bs.length := by
  induction bs with
  | nil => rfl
  | cons b rest ih =>
    simp only [hexUpper, List.flatMap_cons, List.length_append] at *
    rw [ih]
    simp [hexByte]
    omega

/-- Every character `hexUpper` writes is an uppercase-hex digit. -/
theorem hexUpper_mem (bs : List Nat) : ∀ c ∈ hexUpper bs, c ∈ hexChars := by
  induction bs with
  | nil => intro c hc; simp [hexUpper] at hc
  | cons b rest ih =>
    intro c hc
    simp only [hexUpper, List.flatMap_cons, List.mem_append] at hc
    rcases hc with hc | hc
    · simp only [hexByte, List.mem_cons, List.not_mem_nil, or_false] at hc
      rcases hc with h | h <;> exact h ▸ hexDigit_mem _
    · exact ih c hc

/-- SHA-1 digests are twenty bytes long. -/
theorem sha1_length (msg : List Nat) : (sha1 msg).length = 20 := by
  simp [sha1, digestBytes, be4]

/-- C1: the status-pair table of `evaluate_acc_breach_statuscodes`:
`(401,401)` gives `InvalidApiKey`; `(404,404)` and `(404,400)` give
`Ok false`; `(400,400)`, `(400,404)` and `(400,200)` give `BadResponse`;
every other pair — in particular `(200,200)` and `(200,404)` — gives
`Ok true`. -/
theorem evaluate_acc_breach_statuscodes_table (a p : Nat) :
    evaluate_acc_breach_statuscodes a p =
      if a = 401 ∧ p = 401 then .error CheckpwnError.InvalidApiKey
      else if (a = 404 ∧ p = 404) ∨ (a = 404 ∧ p = 400) then .ok false
      else if a = 400 ∧ (p = 400 ∨ p = 404 ∨ p = 200) then
        .error CheckpwnError.BadResponse
      else .ok true := by
  unfold evaluate_acc_breach_statuscodes
  split <;> simp_all
  next ha hb hc hd he hf =>
    rw [if_neg (fun h => ha h.1 h.2),
      if_neg (fun h => h.elim (fun h => hb h.1 h.2) (fun h => hc h.1 h.2)),
      if_neg (fun h => h.2.elim (fun h2 => hd h.1 h2)
        (fun h2 => h2.elim (fun h3 => he h.1 h3) (fun h3 => hf h.1 h3)))]

/-- C2: over a body whose lines each contain a colon and a 40-character
digest, `search_in_range` returns a boolean that is `true` exactly when some
line has a count field other than `"0"` and a suffix field equal to
characters 5 through 39 of the digest; count-`"0"` lines never match and the
scan continues past them. -/
theorem search_in_range_spec (body digest : Str)
    (hwf : ∀ l ∈ rustLines body, 2 ≤ (splitOn ':' l).length)
    (hlen : digest.length = 40) :
    (∃ b, search_in_range body digest = some b) ∧
    (search_in_range body digest = some true ↔
      ∃ l ∈ rustLines body,
        (splitOn ':' l).getD 1 [] ≠ ['0'] ∧
        (splitOn ':' l).getD 0 [] = digest.drop 5) := by
  have h5 : 5 ≤ digest.length := by omega
  rw [search_in_range, search_lines_eq_any _ _ h5 hwf]
  refine ⟨⟨_, rfl⟩, ?_⟩
  simp [List.any_eq_true]

/-- C2 witness: a body whose first line carries the matching suffix with
count `0` (skipped) and whose second line is the true match, against the
digest of "qwerty". -/
theorem search_in_range_spec_witness :
    (∀ l ∈ rustLines
        "73A05C0ED0176787A4F1574FF0075F7521E:0\n73A05C0ED0176787A4F1574FF0075F7521E:3752262".data,
      2 ≤ (splitOn ':' l).length) ∧
    "B1B3773A05C0ED0176787A4F1574FF0075F7521E".data.length = 40 ∧
    search_in_range
      "73A05C0ED0176787A4F1574FF0075F7521E:0\n73A05C0ED0176787A4F1574FF0075F7521E:3752262".data
      "B1B3773A05C0ED0176787A4F1574FF0075F7521E".data = some true :=
  ⟨by decide, by decide,
    (search_in_range_spec _ _ (by decide) (by decide)).2.mpr
      ⟨"73A05C0ED0176787A4F1574FF0075F7521E:3752262".data,
        by decide, by decide, by decide⟩⟩

/-- C5 counterexample: on a body with a line holding no colon,
`pair.get(1).unwrap()` panics — the function does not return a boolean for
every pair of input strings. -/
theorem search_in_range_panic_on_no_colon :
    search_in_range "abc".data
      "B1B3773A05C0ED0176787A4F1574FF0075F7521E".data = none := by
  decide

/-- C5 (amended): on any body whose lines each contain a colon and any
hashed key of length at least 5, `search_in_range` terminates with a boolean
and no panic, and identical inputs always yield the identical result (the
embedding is a pure function of its two arguments). -/
theorem search_in_range_total (body key : Str)
    (hwf : ∀ l ∈ rustLines body, 2 ≤ (splitOn ':' l).length)
    (hkey : 5 ≤ key.length) :
    (∃ b, search_in_range body key = some b) ∧
    ∀ body2 key2, body2 = body → key2 = key →
      search_in_range body2 key2 = search_in_range body key :=
  ⟨⟨_, search_lines_eq_any _ _ hkey hwf⟩,
    fun _ _ h1 h2 => by rw [h1, h2]⟩

/-- C5 witness: totality applied to a two-line body and the digest of
"qwerty". -/
theorem search_in_range_total_witness :
    (∀ l ∈ rustLines "AB:0\nCD:2".data, 2 ≤ (splitOn ':' l).length) ∧
    5 ≤ "B1B3773A05C0ED0176787A4F1574FF0075F7521E".data.length ∧
    ∃ b, search_in_range "AB:0\nCD:2".data
      "B1B3773A05C0ED0176787A4F1574FF0075F7521E".data = some b :=
  ⟨by decide, by decide,
    (search_in_range_total _ _ (by decide) (by decide)).1⟩

/-- C3: at a range-request outcome delivered as `Err(Status(404, ..))` — how
ureq delivers every 4xx/5xx response, here with a body whose line matches
the digest of the test vector — `check_password` panics at
`pass_stat.unwrap()` instead of returning `Ok(false)` as the claim states
for a 404 with a local match. -/
theorem check_password_panics_on_status_error :
    check_password ⟨"B1B3773A05C0ED0176787A4F1574FF0075F7521E".data⟩
      (.error (.Status 404
        ⟨404, "73A05C0ED0176787A4F1574FF0075F7521E:1".data⟩)) = none := by
  rfl

/-- C4: the produced routes — for `Pass` with a digest of length at least 5,
the range URL followed by exactly the first five characters of the digest (the
rest of the digest is absent, the URL being fully determined by those five);
for `Acc` and `Paste`, the endpoint URL followed by the search term
verbatim. -/
theorem arg_to_api_route_spec (t : Str) :
    (5 ≤ t.length → arg_to_api_route .Pass t =
      some ("https://api.pwnedpasswords.com/range/".data ++ t.take 5)) ∧
    arg_to_api_route .Acc t =
      some ("https://haveibeenpwned.com/api/v3/breachedaccount/".data ++ t) ∧
    arg_to_api_route .Paste t =
      some ("https://haveibeenpwned.com/api/v3/pasteaccount/".data ++ t) := by
  refine ⟨fun h => ?_, rfl, rfl⟩
  rw [arg_to_api_route, if_neg (by omega)]
  rfl

/-- C4 witness: the route built for the SHA-1 digest of "qwerty" is the range
URL of the Rust test `test_make_req_and_arg_to_route`. -/
theorem arg_to_api_route_spec_witness :
    5 ≤ "B1B3773A05C0ED0176787A4F1574FF0075F7521E".data.length ∧
    arg_to_api_route .Pass "B1B3773A05C0ED0176787A4F1574FF0075F7521E".data =
      some "https://api.pwnedpasswords.com/range/B1B37".data :=
  ⟨by decide,
    ((arg_to_api_route_spec
      "B1B3773A05C0ED0176787A4F1574FF0075F7521E".data).1 (by decide)).trans
      (by decide)⟩

/-- C6: `response_to_status_codes` yields `Ok` with the HTTP status whenever a
response was obtained — a success response or an error-status response — and
yields `Network` exactly when no response was obtained (`Transport`); no other
error variant is ever produced. -/
theorem response_to_status_codes_spec (r : Except UreqError UreqResponse) :
    (∀ resp, r = .ok resp → response_to_status_codes r = .ok resp.status) ∧
    (∀ code resp, r = .error (.Status code resp) →
      response_to_status_codes r = .ok code) ∧
    (response_to_status_codes r = .error CheckpwnError.Network ↔
      r = .error .Transport) ∧
    (∀ e, response_to_status_codes r = .error e → e = CheckpwnError.Network) := by
  rcases r with err | resp
  · rcases err with ⟨code, resp⟩ | _ <;> simp [response_to_status_codes]
  · simp [response_to_status_codes]

/-- C6 witness: the characterization applied at a transport failure and at a
concrete 503 error-status outcome. -/
theorem response_to_status_codes_spec_witness :
    response_to_status_codes (.error .Transport) =
      .error CheckpwnError.Network ∧
    response_to_status_codes (.error (.Status 503 ⟨503, []⟩)) = .ok 503 :=
  ⟨(response_to_status_codes_spec (.error .Transport)).2.2.1.mpr rfl,
    (response_to_status_codes_spec (.error (.Status 503 ⟨503, []⟩))).2.1
      503 ⟨503, []⟩ rfl⟩

set_option maxRecDepth 200000 in
/-- C7: `hash_password` is deterministic, and for every non-empty plaintext
returns a 40-character string of uppercase hexadecimal digits; the known
vector of the Rust test `test_sha1` holds:
`hash_password "qwerty" = "B1B3773A05C0ED0176787A4F1574FF0075F7521E"`. -/
theorem hash_password_spec :
    (∀ p q : Str, p = q → hash_password p = hash_password q) ∧
    (∀ p : Str, p ≠ [] →
      (hash_password p).length = 40 ∧ ∀ c ∈ hash_password p, c ∈ hexChars) ∧
    hash_password "qwerty".data =
      "B1B3773A05C0ED0176787A4F1574FF0075F7521E".data := by
  refine ⟨fun p q h => h ▸ rfl, fun p _ => ⟨?_, hexUpper_mem _⟩, ?_⟩
  · rw [hash_password, hexUpper_length, sha1_length]
  · decide

/-- C7 witness: the shape guarantees applied to the one-character
plaintext "a". -/
theorem hash_password_spec_witness :
    "a".data ≠ ([] : Str) ∧ (hash_password "a".data).length = 40 ∧
      ∀ c ∈ hash_password "a".data, c ∈ hexChars :=
  ⟨by decide, (hash_password_spec.2.1 "a".data (by decide)).1,
    (hash_password_spec.2.1 "a".data (by decide)).2⟩

/-- C8: `Password::new` rejects exactly the empty plaintext with
`EmptyInput`, and `check_account` returns `EmptyInput` whenever either
argument is empty — independently of both transport outcomes, which models
the rejection happening before the delay and before any request. -/
theorem empty_input_rejection :
    Password.new [] = .error CheckpwnError.EmptyInput ∧
    (∀ p : Str, p ≠ [] → Password.new p = .ok ⟨hash_password p⟩) ∧
    (∀ (account api_key : Str) (o1 o2 o1' o2' : Except UreqError UreqResponse),
      account = [] ∨ api_key = [] →
      check_account account api_key o1 o2 = .error CheckpwnError.EmptyInput ∧
      check_account account api_key o1 o2 =
        check_account account api_key o1' o2') := by
  refine ⟨rfl, fun p hp => ?_, fun account api_key o1 o2 o1' o2' h => ?_⟩
  · rw [Password.new, if_neg hp]
  · rw [check_account, if_pos h, check_account, if_pos h]
    exact ⟨rfl, rfl⟩

/-- C8 witness: a non-empty plaintext is accepted, and an empty account is
rejected whatever the transport outcomes were going to be. -/
theorem empty_input_rejection_witness :
    "x".data ≠ ([] : Str) ∧
    Password.new "x".data = .ok ⟨hash_password "x".data⟩ ∧
    check_account [] "key".data (.error .Transport) (.ok ⟨200, []⟩) =
      .error CheckpwnError.EmptyInput :=
  ⟨by decide, empty_input_rejection.2.1 "x".data (by decide),
    (empty_input_rejection.2.2 [] "key".data (.error .Transport)
      (.ok ⟨200, []⟩) (.ok ⟨200, []⟩) (.ok ⟨200, []⟩) (Or.inl rfl)).1⟩

/-- C9: the `Debug` rendering of every `Password` is the fixed placeholder
`Password \x7b hash: ***OMITTED*** \x7d`, any two passwords render
identically, and no 40-character digest occurs inside the rendering. -/
theorem password_debug_opaque :
    (∀ p : Password,
      p.debugFmt = "Password \x7b hash: ***OMITTED*** \x7d".data) ∧
    (∀ p q : Password, p.debugFmt = q.debugFmt) ∧
    (∀ p : Password, p.hash.length = 40 →
      ∀ s t : Str, s ++ p.hash ++ t ≠ p.debugFmt) := by
  refine ⟨fun p => rfl, fun p q => rfl, fun p hlen s t h => ?_⟩
  have h32 : ("Password \x7b hash: ***OMITTED*** \x7d".data : Str).length = 32 := by
    decide
  have hc := congrArg List.length h
  rw [Password.debugFmt] at hc
  simp only [List.length_append, hlen, h32] at hc
  omega

/-- C9 witness: the non-occurrence applied to a concrete 40-character
digest. -/
theorem password_debug_opaque_witness :
    (Password.mk "B1B3773A05C0ED0176787A4F1574FF0075F7521E".data).hash.length
      = 40 ∧
    [] ++ (Password.mk "B1B3773A05C0ED0176787A4F1574FF0075F7521E".data).hash
      ++ [] ≠
      (Password.mk "B1B3773A05C0ED0176787A4F1574FF0075F7521E".data).debugFmt :=
  ⟨by decide,
    password_debug_opaque.2.2 _ (by decide) [] []⟩
